import Mathlib

set_option maxRecDepth 16384

/-!
Shallow embedding of the model-fallback reply router of the support-chat
repository, together with its deterministic fallback responder, prompt
builder, availability tracking and the HTTP chat handlers.

Conventions of the embedding:
* JavaScript strings are modelled by `String`; `toLowerCase` by
  `jsToLower`, `includes` by `jsIncludes`, `slice(0, n)` by `strSlice`,
  `split(' ')` by `jsSplitOnSpace`, `trim` by `jsTrim`,
  `Array.prototype.join(sep)` by `joinWith sep`.
* `Date.now()` timestamps are natural numbers (milliseconds).  The two
  `Date.now()` reads inside one loop iteration of `generateReply`
  (availability check and rate-limit marking) are modelled as the same
  instant `clock attempt`.
* The JavaScript `Map<string, number>` of rate-limited models is an
  association list with unique keys (`Map.set` = `mapSet`, which overwrites
  the entry of an existing key in place and appends a fresh key at the end).
* The opaque upstream invocation `model.generateContent(...)` raced against
  the 30 s timeout is modelled by an environment `behavior : String →
  ModelResult`: per model name it either yields text (`ok`) or fails
  (`error msg`, which covers vendor errors and the `"Request timeout"`
  rejection alike).  The prompt does not influence control flow, so it is
  not passed to `behavior`.
* `GoogleGenerativeAI` construction never throws for a present key and
  `getGenerativeModel` never throws (it performs no validation), so the
  corresponding `try`/`catch` arms are modelled as always succeeding.
* The loop additionally records the list of invoked model names (ghost
  instrumentation absent from the source; it does not affect any result).
-/

/-- An FAQ row `{question, answer}`. -/
structure FAQ where
  question : String
  answer : String
deriving DecidableEq

/-- Message sender, `'user' | 'ai'` in the source. -/
inductive Sender where
  | user
  | ai
deriving DecidableEq, BEq

/-- A chat message as used by the prompt builder. -/
structure ChatMessage where
  sender : Sender
  text : String
deriving DecidableEq

/-- JavaScript `Array.prototype.join(sep)`. -/
def joinWith (sep : String) : List String → String
  | [] => ""
  | [x] => x
  | x :: y :: rest => x ++ sep ++ joinWith sep (y :: rest)

/-- Whether `sub` occurs as a contiguous run inside `hay`. -/
def charsHaveInfix (sub : List Char) : List Char → Bool
  | [] => sub.isEmpty
  | c :: rest => sub.isPrefixOf (c :: rest) || charsHaveInfix sub rest

/-- JavaScript `s.includes(sub)`. -/
def jsIncludes (s sub : String) : Bool :=
  charsHaveInfix sub.data s.data

/-- JavaScript `s.slice(0, n)`. -/
def strSlice (s : String) (n : Nat) : String :=
  String.mk (s.data.take n)

/-- JavaScript `s.toLowerCase()` (character-wise, as `String.toLower`
computes it, but defined by structural recursion over the character list so
that it evaluates inside the kernel). -/
def jsToLower (s : String) : String :=
  String.mk (s.data.map Char.toLower)

/-- JavaScript `s.trim()`: strip leading and trailing whitespace. -/
def jsTrim (s : String) : String :=
  String.mk (((s.data.dropWhile Char.isWhitespace).reverse.dropWhile
    Char.isWhitespace).reverse)

/-- Splitter for JavaScript `s.split(' ')`. -/
def splitOnSpaceAux : List Char → List Char → List String
  | [], acc => [String.mk acc.reverse]
  | c :: rest, acc =>
      if c == ' ' then String.mk acc.reverse :: splitOnSpaceAux rest []
      else splitOnSpaceAux rest (c :: acc)

/-- JavaScript `s.split(' ')`: split at every single space, keeping empty
pieces, `[""]` on the empty string. -/
def jsSplitOnSpace (s : String) : List String :=
  splitOnSpaceAux s.data []

/-- The fixed model priority list of `gemini.ts` (`MODEL_PRIORITY`). -/
def MODEL_PRIORITY : List String :=
  [ "gemini-2.5-flash-lite"
  , "gemini-2.5-flash-tts"
  , "gemini-2.5-flash"
  , "gemini-3-flash"
  , "gemini-robotics-er-1.5-preview"
  , "gemma-3-12b"
  , "gemma-3-1b"
  , "gemma-3-27b"
  , "gemma-3-2b"
  , "gemma-3-4b" ]

/-- Association-list update with JavaScript `Map.set` semantics: overwrite
the entry of an existing key in place, append a fresh key at the end. -/
def mapSet : List (String × Nat) → String → Nat → List (String × Nat)
  | [], key, v => [(key, v)]
  | e :: rest, key, v =>
      if e.1 == key then (key, v) :: rest else e :: mapSet rest key v

/-- The module-level mutable state of `gemini.ts`: the `rateLimitedModels`
map, whether `genAI` has been initialised (is non-null), and the
`useMockMode` latch. -/
structure RouterState where
  rateLimitedModels : List (String × Nat)
  genAI : Bool
  useMockMode : Bool
deriving DecidableEq

/-- `markModelAsRateLimited` (gemini.ts lines 74-77):
`rateLimitedModels.set(modelName, Date.now())`. -/
def markModelAsRateLimited (s : RouterState) (modelName : String) (now : Nat) :
    RouterState :=
  { s with rateLimitedModels := mapSet s.rateLimitedModels modelName now }

/-- The lazy cleanup at the top of `getNextAvailableModel` (gemini.ts
lines 47-53): drop entries whose cooldown has expired
(`now - timestamp > 60000`). -/
def purgeExpired (m : List (String × Nat)) (now : Nat) :
    List (String × Nat) :=
  m.filter (fun e => !(now - e.2 > 60000))

/-- `getNextAvailableModel` (gemini.ts lines 26-72).  Returns the chosen
model name (or `none`) and the updated state: the mock latch may be set when
no API key is present, `genAI` becomes initialised, and expired rate-limit
entries are purged. -/
def getNextAvailableModel (priority : List String) (hasApiKey : Bool)
    (now : Nat) (s : RouterState) : Option String × RouterState :=
  if s.useMockMode then (none, s)
  else if !s.genAI && !hasApiKey then (none, { s with useMockMode := true })
  else
    match priority.find? (fun name =>
        !((purgeExpired s.rateLimitedModels now).any (fun e => e.1 == name))) with
    | some name =>
        (some name, { s with genAI := true
                           , rateLimitedModels := purgeExpired s.rateLimitedModels now })
    | none =>
        (none, { s with genAI := true
                      , rateLimitedModels := purgeExpired s.rateLimitedModels now })

/-- Availability of one model as decided inside `getNextAvailableModel`
(gemini.ts lines 47-57): after lazily purging entries older than 60000 ms,
a model is available iff the map has no entry for it. -/
def isAvailable (m : List (String × Nat)) (name : String) (now : Nat) : Bool :=
  !((purgeExpired m now).any (fun e => e.1 == name))

/-- Fixed contact-information block of the frontend responder
(frontend gemini.ts line 85). -/
def contactBlock : String :=
  "You can reach our support team at:\n📞 Phone: 1-800-SHOP-EASE (1-800-746-7327)\n📧 Email: support@shopease.com\n🕒 Hours: Monday-Friday, 9 AM - 6 PM EST\n💬 Live Chat: Available 24/7 (right here!)\n\nWe typically respond within 2 hours. How else can I help you today?"

/-- Default text of the backend responder (backend gemini.ts line 105). -/
def backendDefaultResponse : String :=
  "Thank you for your question! While I\x27m currently experiencing some technical difficulties with my AI connection, I\x27d be happy to help. For immediate assistance, please contact our support team at support@shopease.com or call us Monday-Friday, 9 AM - 6 PM EST."

/-- Default text of the frontend responder (frontend gemini.ts line 99). -/
def frontendDefaultResponse : String :=
  "Thank you for your question! While I\x27m currently experiencing some technical difficulties with my AI connection, I\x27d be happy to help. For immediate assistance, please contact our support team:\n📞 1-800-SHOP-EASE (1-800-746-7327)\n📧 support@shopease.com\n🕒 Monday-Friday, 9 AM - 6 PM EST"

/-- The per-FAQ test of the responder loop: 15-character question-prefix
containment, or else a question word longer than 4 characters occurring in
the message (backend gemini.ts lines 92-102, frontend lines 88-97). -/
def faqMatches (lowerMessage : String) (faq : FAQ) : Bool :=
  jsIncludes lowerMessage (strSlice (jsToLower faq.question) 15) ||
    (jsSplitOnSpace (jsToLower faq.question)).any
      (fun keyword => jsIncludes lowerMessage keyword && decide (keyword.length > 4))

/-- The FAQ loop of `generateMockResponse`: first FAQ matching either test
wins (prefix test before keyword test, both inside one pass). -/
def faqScan (lowerMessage : String) : List FAQ → Option String
  | [] => none
  | faq :: rest =>
      if jsIncludes lowerMessage (strSlice (jsToLower faq.question) 15) then
        some faq.answer
      else if (jsSplitOnSpace (jsToLower faq.question)).any
          (fun keyword => jsIncludes lowerMessage keyword && decide (keyword.length > 4)) then
        some faq.answer
      else faqScan lowerMessage rest

/-- `generateMockResponse` of the backend (backend gemini.ts lines 88-106):
FAQ scan, then the default text.  Note there is no trigger-word step here. -/
def generateMockResponse (userMessage : String) (faqs : List FAQ) : String :=
  match faqScan (jsToLower userMessage) faqs with
  | some answer => answer
  | none => backendDefaultResponse

/-- `generateMockResponse` of the frontend (frontend gemini.ts lines
79-100): support trigger words first, then the FAQ scan, then the default
text. -/
def frontendGenerateMockResponse (userMessage : String) (faqs : List FAQ) :
    String :=
  if jsIncludes (jsToLower userMessage) "contact" ||
      jsIncludes (jsToLower userMessage) "phone" ||
      jsIncludes (jsToLower userMessage) "email" ||
      jsIncludes (jsToLower userMessage) "call" ||
      jsIncludes (jsToLower userMessage) "support number" ||
      jsIncludes (jsToLower userMessage) "reach" then
    contactBlock
  else
    match faqScan (jsToLower userMessage) faqs with
    | some answer => answer
    | none => frontendDefaultResponse

/-- Outcome of one opaque upstream invocation: the SDK call either resolves
with text or rejects with an error message (vendor errors and the 30 s
`"Request timeout"` rejection alike). -/
inductive ModelResult where
  | ok (text : String)
  | error (msg : String)
deriving DecidableEq

/-- Rate-limit classification of an error message (gemini.ts lines
189-193).  In the source it only selects between two log lines: both the
rate-limit branch and the other-error branch mark the model and continue. -/
def isRateLimitError (msg : String) : Bool :=
  jsIncludes (jsToLower msg) "rate limit" || jsIncludes (jsToLower msg) "quota" ||
    jsIncludes (jsToLower msg) "429" || jsIncludes (jsToLower msg) "resource exhausted"

/-- Whether an invocation outcome is treated as a failure by the loop body:
a rejection, or resolved text that is empty after trimming (gemini.ts
lines 177-179). -/
def isFailureB : ModelResult → Bool
  | ModelResult.ok text => (jsTrim text).length == 0
  | ModelResult.error _ => true

/-- The error recorded in `lastError` for a failed invocation: the
rejection message, or `"Empty response from Gemini"` for blank text. -/
def failMessage : ModelResult → String
  | ModelResult.ok _ => "Empty response from Gemini"
  | ModelResult.error msg => msg

/-- The `try` block of one loop iteration after a model was obtained
(gemini.ts lines 163-205): returns `(some replyText, unchanged state, none)`
on success, or `(none, state with the model marked rate-limited, some
lastError)` on any failure — rate-limit and other errors are handled
identically (both call `markModelAsRateLimited` and `continue`). -/
def invokeModel (behavior : String → ModelResult) (now : Nat)
    (modelName : String) (s : RouterState) :
    Option String × RouterState × Option String :=
  match behavior modelName with
  | ModelResult.ok text =>
      if (jsTrim text).length == 0 then
        (none, markModelAsRateLimited s modelName now,
          some "Empty response from Gemini")
      else
        (some (jsTrim text), s, none)
  | ModelResult.error msg =>
      (none, markModelAsRateLimited s modelName now, some msg)

/-- The reply produced by `generateReply`. -/
inductive ReplyOutcome where
  | success (text : String) (modelUsed : String)
  | degraded (text : String)
deriving DecidableEq

/-- Result of the fallback loop: the outcome, the list of model names that
were actually invoked in order (ghost instrumentation), the final module
state, and the final `lastError`. -/
structure LoopResult where
  outcome : ReplyOutcome
  invoked : List String
  finalState : RouterState
  lastError : Option String
deriving DecidableEq

/-- The `for (let attempt = 0; attempt < MODEL_PRIORITY.length; attempt++)`
loop of `generateReply` (gemini.ts lines 119-211).  `fuel` is the number of
iterations that remain, `attempt` the current iteration index; iteration
`attempt` reads the clock as `clock attempt`.  When no model is obtainable,
and when the loop runs out of iterations, the mock responder supplies a
degraded reply. -/
def replyLoop (behavior : String → ModelResult) (clock : Nat → Nat)
    (priority : List String) (hasApiKey : Bool)
    (userMessage : String) (faqs : List FAQ) :
    Nat → Nat → RouterState → Option String → LoopResult
  | 0, _, s, lastErr =>
      ⟨ReplyOutcome.degraded (generateMockResponse userMessage faqs), [], s, lastErr⟩
  | fuel + 1, attempt, s, lastErr =>
      match getNextAvailableModel priority hasApiKey (clock attempt) s with
      | (none, s1) =>
          ⟨ReplyOutcome.degraded (generateMockResponse userMessage faqs), [], s1, lastErr⟩
      | (some modelName, s1) =>
          match invokeModel behavior (clock attempt) modelName s1 with
          | (some text, s2, _) =>
              ⟨ReplyOutcome.success text modelName, [modelName], s2, lastErr⟩
          | (none, s2, err) =>
              let r := replyLoop behavior clock priority hasApiKey userMessage
                faqs fuel (attempt + 1) s2 err
              ⟨r.outcome, modelName :: r.invoked, r.finalState, r.lastError⟩

/-- `generateReply` (gemini.ts lines 108-220), with the store collaborator
abstracted away: the FAQ list is passed in, and the reply loop runs for at
most `MODEL_PRIORITY.length` iterations starting from module state `s`.
`priority` is a parameter so that properties can be stated for every
priority list; the source instantiates it with `MODEL_PRIORITY`. -/
def generateReply (behavior : String → ModelResult) (clock : Nat → Nat)
    (priority : List String) (hasApiKey : Bool)
    (userMessage : String) (faqs : List FAQ) (s : RouterState) : LoopResult :=
  replyLoop behavior clock priority hasApiKey userMessage faqs
    priority.length 0 s none

/-- `faqContext` of the prompt builder (gemini.ts lines 135-137):
`Q:`/`A:` pairs in FAQ order joined by blank lines. -/
def faqContextOf (faqs : List FAQ) : String :=
  joinWith "\n\n"
    (faqs.map (fun faq => "Q: " ++ faq.question ++ "\nA: " ++ faq.answer))

/-- `conversationHistory` of the prompt builder (gemini.ts lines 140-142):
`Customer:`/`Agent:` lines in chronological order joined by newlines. -/
def historyLinesOf (msgs : List ChatMessage) : String :=
  joinWith "\n"
    (msgs.map (fun m =>
      (if m.sender == Sender.user then "Customer" else "Agent") ++ ": " ++ m.text))

/-- The fixed text of the prompt template before the FAQ block
(gemini.ts lines 145-148). -/
def promptHeader : String :=
  "You are a helpful AI support agent for \"ShopEase\", a modern e-commerce store. \nYour role is to assist customers with their questions clearly, concisely, and professionally.\n\nSTORE INFORMATION:\n"

/-- The fixed text of the prompt template between the FAQ block and the
optional history block (gemini.ts lines 150-158). -/
def promptGuidelines : String :=
  "\n\nGUIDELINES:\n- Be friendly, professional, and empathetic\n- Answer based on the store information provided above\n- If you don\x27t know something, be honest and offer to connect them with human support\n- Keep responses concise (2-3 sentences max unless more detail is needed)\n- Use a warm, conversational tone\n- For questions outside the FAQ scope, provide helpful general guidance\n\n"

/-- The `systemPrompt` template of `generateReply` (gemini.ts lines
145-161).  The history block is included exactly when the joined
`conversationHistory` string is truthy, i.e. non-empty. -/
def buildPrompt (faqs : List FAQ) (recentMessages : List ChatMessage)
    (userMessage : String) : String :=
  promptHeader ++ faqContextOf faqs ++ promptGuidelines ++
    (if historyLinesOf recentMessages = "" then ""
     else "CONVERSATION HISTORY:\n" ++ historyLinesOf recentMessages ++ "\n") ++
    "\nCustomer: " ++ userMessage ++ "\nAgent:"

/-- JavaScript `parseInt(s)` for base-10 inputs: skip leading whitespace,
accept an optional sign, then parse the leading digit run; `none` models
`NaN` (no digits).  The `0x` hexadecimal special case of `parseInt` is not
reachable with the ids these handlers receive and is not modelled. -/
def jsParseInt (s : String) : Option Int :=
  let cs := s.data.dropWhile
    (fun c => c == ' ' || c == '\t' || c == '\n' || c == '\r')
  let signDigits : Bool × List Char :=
    match cs with
    | '-' :: rest => (true, rest)
    | '+' :: rest => (false, rest)
    | _ => (false, cs)
  let ds := signDigits.2.takeWhile Char.isDigit
  if ds.isEmpty then none
  else
    let n : Nat := ds.foldl (fun acc c => acc * 10 + (c.toNat - 48)) 0
    some (if signDigits.1 then -(n : Int) else (n : Int))

/-- A persisted message row (`messages` table). -/
structure MessageRec where
  conversationId : Int
  sender : Sender
  text : String
deriving DecidableEq

/-- The relational store as the handlers see it: the ids of existing
conversations, the messages in insertion (chronological) order, and the id
the next `createConversation` returns. -/
structure Store where
  conversations : List Int
  messages : List MessageRec
  nextId : Int
deriving DecidableEq

/-- `db.getConversation(id)` is non-null iff a conversation row exists. -/
def storeHasConversation (st : Store) (id : Int) : Bool :=
  st.conversations.contains id

/-- `db.getMessages(conversationId, limit)`: chronological ascending,
first `limit` rows. -/
def storeGetMessages (st : Store) (id : Int) (limit : Nat) : List MessageRec :=
  (st.messages.filter (fun m => m.conversationId == id)).take limit

/-- `db.getRecentMessages(conversationId, limit)`: newest `limit` rows,
returned in chronological order (`ORDER BY timestamp DESC LIMIT n` then
`reverse()`). -/
def storeGetRecentMessages (st : Store) (id : Int) (limit : Nat) :
    List MessageRec :=
  (((st.messages.filter (fun m => m.conversationId == id)).reverse).take limit).reverse

/-- `db.createConversation()`: returns the fresh id and the grown store. -/
def storeCreateConversation (st : Store) : Int × Store :=
  (st.nextId,
    { st with conversations := st.conversations ++ [st.nextId]
            , nextId := st.nextId + 1 })

/-- `db.createMessage(conversationId, sender, text)`. -/
def storeCreateMessage (st : Store) (id : Int) (sender : Sender)
    (text : String) : Store :=
  { st with messages := st.messages ++ [⟨id, sender, text⟩] }

/-- Status outcome of a `GET .../history/...` request. -/
inductive HistoryResponse where
  | badRequest
  | notFound
  | ok (messages : List MessageRec)
  | serverError
deriving DecidableEq

/-- `router.get('/history/:sessionId')` of the express backend
(routes/chat.ts): 400 when `parseInt` yields NaN, 404 when
`db.getConversation` is null, otherwise the conversation's messages. -/
def historyHandlerBackend (st : Store) (sessionIdParam : String) :
    HistoryResponse :=
  match jsParseInt sessionIdParam with
  | none => HistoryResponse.badRequest
  | some sessionId =>
      if storeHasConversation st sessionId then
        HistoryResponse.ok (storeGetMessages st sessionId 50)
      else HistoryResponse.notFound

/-- `app.get('/api/chat/history/:conversationId')` of the standalone API
server (api/index.ts): 400 when `parseInt` yields NaN, otherwise the last
50 messages — there is no existence check, an absent conversation yields
200 with an empty list. -/
def historyHandlerApi (st : Store) (conversationIdParam : String) :
    HistoryResponse :=
  match jsParseInt conversationIdParam with
  | none => HistoryResponse.badRequest
  | some conversationId =>
      HistoryResponse.ok (storeGetRecentMessages st conversationId 50)

/-- The SvelteKit `GET /api/chat/history/[conversationId]` handler: the
`error(400, ...)` it throws for a NaN id is raised inside its own
`try`, so the `catch` swallows it and rethrows `error(500, ...)` — the
caller observes 500, not 400.  There is no existence check either. -/
def historyHandlerSvelte (st : Store) (conversationIdParam : String) :
    HistoryResponse :=
  match jsParseInt conversationIdParam with
  | none => HistoryResponse.serverError
  | some conversationId =>
      HistoryResponse.ok (storeGetRecentMessages st conversationId 50)

/-- Failure injection for the POST handler's collaborators: the reply text
`generateReply` resolves with, whether `generateReply` rejects, and whether
persisting the AI reply rejects. -/
structure PostEnv where
  replyText : String
  genFails : Bool
  saveAiFails : Bool
deriving DecidableEq

/-- Status outcome of `POST /api/chat/message`. -/
inductive PostResponse where
  | badRequest
  | okReply (reply : String) (sessionId : Int)
  | serverError
deriving DecidableEq

/-- `router.post('/message')` of the express backend (routes/chat.ts lines
9-73): validate, resolve or create the conversation, persist the user
message, generate the reply, persist the AI message, respond.  Any
rejection after validation is caught and answered with 500, leaving the
store as it was at the point of failure.  A `sessionId` string that parses
to NaN would make the `getConversation` query itself reject (500 before
anything is written); that is the `none` branch of `jsParseInt`. -/
def postMessageHandler (env : PostEnv) (st : Store) (message : String)
    (sessionId : Option String) : PostResponse × Store :=
  if (jsTrim message) = "" then (PostResponse.badRequest, st)
  else if (jsTrim message).length > 1000 then (PostResponse.badRequest, st)
  else
    let trimmedMessage := (jsTrim message)
    let resolved : Option (Int × Store) :=
      match sessionId with
      | some sidStr =>
          match jsParseInt sidStr with
          | none => none
          | some sid =>
              if storeHasConversation st sid then some (sid, st)
              else some (storeCreateConversation st)
      | none => some (storeCreateConversation st)
    match resolved with
    | none => (PostResponse.serverError, st)
    | some (conversationId, st1) =>
        let st2 := storeCreateMessage st1 conversationId Sender.user trimmedMessage
        if env.genFails then (PostResponse.serverError, st2)
        else if env.saveAiFails then (PostResponse.serverError, st2)
        else
          (PostResponse.okReply env.replyText conversationId,
            storeCreateMessage st2 conversationId Sender.ai env.replyText)

/-! ## Helper lemmas -/

theorem filter_of_all_true {α : Type} (p : α → Bool) :
    ∀ l : List α, (∀ e ∈ l, p e = true) → l.filter p = l := by
  intro l h
  induction l with
  | nil => rfl
  | cons e rest ih =>
      have he := h e (by simp)
      simp [List.filter, he, ih (fun x hx => h x (by simp [hx]))]

theorem any_key_eq_false (rest : List (String × Nat)) (p : String × Nat → Bool)
    (name : String) (h : name ∉ rest.map Prod.fst) :
    ((rest.filter p).any (fun e => e.1 == name)) = false := by
  rw [List.any_eq_false]
  intro e he hbeq
  have hmem : e ∈ rest := List.mem_of_mem_filter he
  have : e.1 = name := by simpa using hbeq
  exact h (List.mem_map.2 ⟨e, hmem, this⟩)

theorem isAvailable_mapSet (m : List (String × Nat)) (name : String)
    (T now : Nat) (huniq : (m.map Prod.fst).Nodup) :
    isAvailable (mapSet m name T) name now = decide (T + 60000 < now) := by
  induction m with
  | nil =>
      by_cases h : T + 60000 < now
      · have h' : 60000 < now - T := by omega
        simp [mapSet, isAvailable, purgeExpired, List.filter, h, h']
      · have h' : ¬ 60000 < now - T := by omega
        simp [mapSet, isAvailable, purgeExpired, List.filter, h, h']
  | cons e rest ih =>
      rw [List.map_cons] at huniq
      obtain ⟨hhd, huniq'⟩ := List.nodup_cons.1 huniq
      cases hk : (e.1 == name) with
      | true =>
          have hkey : e.1 = name := by simpa using hk
          have hnotin : name ∉ rest.map Prod.fst := hkey ▸ hhd
          by_cases h : T + 60000 < now
          · have h' : 60000 < now - T := by omega
            simp [mapSet, hk, isAvailable, purgeExpired, List.filter, h, h',
              any_key_eq_false _ _ _ hnotin]
          · have h' : ¬ 60000 < now - T := by omega
            simp [mapSet, hk, isAvailable, purgeExpired, List.filter, h, h']
      | false =>
          have hne : ¬ (e.1 == name) = true := by simp [hk]
          by_cases hkeep : 60000 < now - e.2
          · simpa [mapSet, hk, isAvailable, purgeExpired, List.filter, hkeep] using ih huniq'
          · simpa [mapSet, hk, isAvailable, purgeExpired, List.filter, hkeep] using ih huniq'

theorem faqMatches_split (lm : String) (f : FAQ)
    (h : faqMatches lm f = false) :
    jsIncludes lm (strSlice (jsToLower f.question) 15) = false ∧
      ((jsSplitOnSpace (jsToLower f.question)).any
        (fun keyword => jsIncludes lm keyword && decide (keyword.length > 4))) = false := by
  unfold faqMatches at h
  exact Bool.or_eq_false_iff.1 h

theorem faqScan_append_none (lm : String) (pre l : List FAQ)
    (h : ∀ f ∈ pre, faqMatches lm f = false) :
    faqScan lm (pre ++ l) = faqScan lm l := by
  induction pre with
  | nil => rfl
  | cons f fs ih =>
      obtain ⟨h1, h2⟩ := faqMatches_split lm f (h f (by simp))
      simp [faqScan, h1, h2, ih (fun g hg => h g (by simp [hg]))]

theorem faqScan_cons_match (lm : String) (faq : FAQ) (l : List FAQ)
    (h : faqMatches lm faq = true) :
    faqScan lm (faq :: l) = some faq.answer := by
  unfold faqMatches at h
  cases h1 : jsIncludes lm (strSlice (jsToLower faq.question) 15) with
  | true => simp [faqScan, h1]
  | false =>
      have h2 : ((jsSplitOnSpace (jsToLower faq.question)).any
          (fun keyword => jsIncludes lm keyword && decide (keyword.length > 4))) = true := by
        simpa [h1] using h
      simp [faqScan, h1, h2]

/-! ## Claim C2 -/

/-- Claim C2, counterexample: marking a model unavailable at `T = 0` leaves
it unavailable at exactly `T + 60000` ms (the claim asserts it is already
available again there); it only becomes available at `T + 60001`. -/
theorem isAvailable_at_cooldown_boundary :
    isAvailable (markModelAsRateLimited ⟨[], true, false⟩ "gemini-2.5-flash" 0).rateLimitedModels
        "gemini-2.5-flash" 60000 = false
  ∧ isAvailable (markModelAsRateLimited ⟨[], true, false⟩ "gemini-2.5-flash" 0).rateLimitedModels
        "gemini-2.5-flash" 60001 = true := by
  decide

/-- Claim C2, amended: a model marked unavailable at time `T`, with no
further marking, is unavailable at every time in the closed interval
`[T, T+60000]` and available at every time strictly greater than
`T + 60000` (times before `T` behave like `[T, T+60000]` as well — the
check `now - timestamp > 60000` uses truncated subtraction in effect).  The
rate-limit map of any reachable state has pairwise-distinct keys, which the
hypothesis records. -/
theorem isAvailable_after_mark (s : RouterState) (name : String) (T now : Nat)
    (huniq : (s.rateLimitedModels.map Prod.fst).Nodup) :
    isAvailable (markModelAsRateLimited s name T).rateLimitedModels name now
      = decide (T + 60000 < now) :=
  isAvailable_mapSet s.rateLimitedModels name T now huniq

theorem isAvailable_after_mark_witness :
    isAvailable (markModelAsRateLimited ⟨[("gemma-3-1b", 3)], true, false⟩ "gemma-3-27b" 5).rateLimitedModels
      "gemma-3-27b" 70000 = true := by
  rw [isAvailable_after_mark ⟨[("gemma-3-1b", 3)], true, false⟩ "gemma-3-27b" 5 70000 (by decide)]
  decide

/-! ## Claim C3 -/

/-- Claim C3, counterexample: the backend responder has no trigger-word
step at all.  On "please contact support" (which contains the trigger
"contact") with an FAQ about phone numbers it returns that FAQ's answer,
not the contact block; on "call me" with no FAQs it returns the generic
default text, not the contact block. -/
theorem backendMock_no_trigger_step :
    generateMockResponse "please contact support"
        [⟨"How do I contact support by phone?", "You can find our phone number on the website."⟩]
      = "You can find our phone number on the website."
  ∧ jsIncludes (jsToLower "please contact support") "contact" = true
  ∧ ("You can find our phone number on the website." : String) ≠ contactBlock
  ∧ generateMockResponse "call me" [] = backendDefaultResponse
  ∧ backendDefaultResponse ≠ contactBlock := by
  decide

/-- Claim C3, amended: the frontend responder returns the fixed contact
block for every message whose lowercased form contains one of the trigger
words contact/phone/email/call/reach, for every FAQ list — trigger words
take precedence over FAQ matching.  (The backend responder has no such
step; see the counterexample.) -/
theorem frontendMock_trigger_precedence (userMessage : String)
    (faqs : List FAQ)
    (h : jsIncludes (jsToLower userMessage) "contact" = true ∨
         jsIncludes (jsToLower userMessage) "phone" = true ∨
         jsIncludes (jsToLower userMessage) "email" = true ∨
         jsIncludes (jsToLower userMessage) "call" = true ∨
         jsIncludes (jsToLower userMessage) "reach" = true) :
    frontendGenerateMockResponse userMessage faqs = contactBlock := by
  unfold frontendGenerateMockResponse
  rcases h with h | h | h | h | h <;> simp [h]

theorem frontendMock_trigger_precedence_witness :
    frontendGenerateMockResponse "call me" [⟨"Call me", "PHONEFAQ"⟩] = contactBlock :=
  frontendMock_trigger_precedence "call me" [⟨"Call me", "PHONEFAQ"⟩]
    (Or.inr (Or.inr (Or.inr (Or.inl (by decide)))))

/-! ## Claim C4 -/

/-- Claim C4, counterexample: the responder runs one combined pass, not a
prefix pass over the whole list followed by a keyword pass.  FAQ 0 matches
only by keyword ("shipping"), FAQ 1 matches by its 15-character question
prefix; the responder returns FAQ 0's answer, while the claim predicts
FAQ 1's. -/
theorem mock_single_pass_cex :
    generateMockResponse "your return policy about shipping"
        [⟨"where is my shipping", "ANSWER0"⟩, ⟨"return policy", "ANSWER1"⟩] = "ANSWER0"
  ∧ jsIncludes "your return policy about shipping"
      (strSlice (jsToLower "return policy") 15) = true
  ∧ jsIncludes "your return policy about shipping"
      (strSlice (jsToLower "where is my shipping") 15) = false
  ∧ (jsSplitOnSpace (jsToLower "where is my shipping")).any
      (fun keyword => jsIncludes "your return policy about shipping" keyword
        && decide (keyword.length > 4)) = true
  ∧ ("ANSWER0" : String) ≠ "ANSWER1" := by
  decide

/-- Claim C4, amended: the responder scans the FAQ list once in order,
testing each FAQ's 15-character question prefix and then its long-keyword
rule before moving on; the first FAQ matching either rule wins.  Hence an
earlier keyword-only match beats a later prefix match. -/
theorem mock_first_combined_match (userMessage : String) (pre rest : List FAQ)
    (faq : FAQ)
    (hpre : ∀ f ∈ pre, faqMatches (jsToLower userMessage) f = false)
    (hfaq : faqMatches (jsToLower userMessage) faq = true) :
    generateMockResponse userMessage (pre ++ faq :: rest) = faq.answer := by
  unfold generateMockResponse
  rw [faqScan_append_none _ _ _ hpre, faqScan_cons_match _ _ _ hfaq]

theorem mock_first_combined_match_witness :
    generateMockResponse "your return policy about shipping"
      [⟨"unrelated question", "OTHER"⟩, ⟨"return policy", "ANSWER1"⟩] = "ANSWER1" :=
  mock_first_combined_match "your return policy about shipping"
    [⟨"unrelated question", "OTHER"⟩] [] ⟨"return policy", "ANSWER1"⟩
    (by decide) (by decide)

/-! ## Claim C9 -/

/-- Claim C9, counterexample: the standalone API server's history handler
answers a numeric id with no existing conversation with 200 and an empty
message list, not with 404. -/
theorem history_missing_404_cex :
    historyHandlerApi ⟨[], [], 1⟩ "999" = HistoryResponse.ok []
  ∧ storeHasConversation ⟨[], [], 1⟩ 999 = false
  ∧ HistoryResponse.ok ([] : List MessageRec) ≠ HistoryResponse.notFound := by
  decide

/-- Claim C9, amended: only the express backend router's history handler
behaves as claimed (400 on a non-numeric id, 404 when the conversation is
absent, otherwise the messages).  The standalone API server's handler
answers 400 on a non-numeric id but returns a possibly-empty message list
with no 404 check, and the SvelteKit handler also lacks the 404 check and
additionally turns its own thrown 400 into a 500 because its `catch` wraps
it. -/
theorem history_handlers_status (st : Store) (p : String) :
    (jsParseInt p = none →
      historyHandlerBackend st p = HistoryResponse.badRequest ∧
      historyHandlerApi st p = HistoryResponse.badRequest ∧
      historyHandlerSvelte st p = HistoryResponse.serverError)
  ∧ (∀ id, jsParseInt p = some id →
      (historyHandlerBackend st p =
        if storeHasConversation st id then
          HistoryResponse.ok (storeGetMessages st id 50)
        else HistoryResponse.notFound) ∧
      historyHandlerApi st p = HistoryResponse.ok (storeGetRecentMessages st id 50) ∧
      historyHandlerSvelte st p = HistoryResponse.ok (storeGetRecentMessages st id 50)) := by
  constructor
  · intro h
    refine ⟨?_, ?_, ?_⟩ <;>
      simp [historyHandlerBackend, historyHandlerApi, historyHandlerSvelte, h]
  · intro id h
    refine ⟨?_, ?_, ?_⟩ <;>
      simp [historyHandlerBackend, historyHandlerApi, historyHandlerSvelte, h]

theorem history_handlers_status_witness :
    historyHandlerBackend ⟨[], [], 1⟩ "abc" = HistoryResponse.badRequest
  ∧ historyHandlerBackend ⟨[], [], 1⟩ "7" = HistoryResponse.notFound := by
  constructor
  · exact ((history_handlers_status ⟨[], [], 1⟩ "abc").1 (by decide)).1
  · rw [((history_handlers_status ⟨[], [], 1⟩ "7").2 7 (by decide)).1]
    decide

/-! ## Claim C10 -/

/-- Claim C10: the POST message handler persists the user's message before
reply generation starts, so whenever reply generation or the saving of the
AI reply fails (500 response), the store still holds the freshly appended
user message — the handler is not atomic and a 500 does not mean the store
is unchanged. -/
theorem postMessage_user_saved_on_failure (env : PostEnv) (st : Store)
    (message : String) (sessionId : Option String)
    (hmsg : (jsTrim message) ≠ "") (hlen : (jsTrim message).length ≤ 1000)
    (hsid : sessionId = none ∨ ∃ s v, sessionId = some s ∧ jsParseInt s = some v)
    (hfail : env.genFails = true ∨ env.saveAiFails = true) :
    (postMessageHandler env st message sessionId).1 = PostResponse.serverError
  ∧ ∃ cid, (postMessageHandler env st message sessionId).2.messages
      = st.messages ++ [⟨cid, Sender.user, (jsTrim message)⟩] := by
  have hlen' : ¬ (jsTrim message).length > 1000 := by omega
  have hfail' : ∀ st2 : Store,
      ((if env.genFails then (PostResponse.serverError, st2)
        else if env.saveAiFails then (PostResponse.serverError, st2)
        else (PostResponse.okReply env.replyText (0 : Int), st2)) :
          PostResponse × Store).1 = PostResponse.serverError := by
    intro st2
    rcases hfail with h | h <;> simp [h]
  rcases hsid with h | ⟨sidStr, v, hs, hv⟩
  · subst h
    unfold postMessageHandler
    rcases hfail with h | h <;>
      simp [hmsg, hlen', h, storeCreateMessage, storeCreateConversation]
  · subst hs
    unfold postMessageHandler
    by_cases hex : storeHasConversation st v = true
    · rcases hfail with h | h <;>
        simp [hmsg, hlen', h, hv, hex, storeCreateMessage, storeCreateConversation]
    · have hex' : storeHasConversation st v = false := by
        simpa using hex
      rcases hfail with h | h <;>
        simp [hmsg, hlen', h, hv, hex', storeCreateMessage, storeCreateConversation]

theorem postMessage_user_saved_on_failure_witness :
    (postMessageHandler ⟨"reply", true, false⟩ ⟨[], [], 1⟩ "hi there" none).1
      = PostResponse.serverError
  ∧ ∃ cid, (postMessageHandler ⟨"reply", true, false⟩ ⟨[], [], 1⟩ "hi there" none).2.messages
      = ([] : List MessageRec) ++ [⟨cid, Sender.user, jsTrim "hi there"⟩] :=
  postMessage_user_saved_on_failure ⟨"reply", true, false⟩ ⟨[], [], 1⟩ "hi there" none
    (by decide) (by decide) (Or.inl rfl) (Or.inl rfl)

/-! ## Router-loop helper lemmas -/

theorem getNext_some_mem (p : List String) (hk : Bool) (now : Nat)
    (s : RouterState) (n : String) (s' : RouterState)
    (h : getNextAvailableModel p hk now s = (some n, s')) : n ∈ p := by
  unfold getNextAvailableModel at h
  split at h
  · simp at h
  · split at h
    · simp at h
    · split at h
      case _ name heq =>
          have hn : name = n := by simpa using congrArg Prod.fst h
          exact hn ▸ List.mem_of_find?_eq_some heq
      case _ heq => simp at h

theorem invokeModel_fail (behavior : String → ModelResult) (now : Nat)
    (name : String) (s : RouterState)
    (h : isFailureB (behavior name) = true) :
    invokeModel behavior now name s =
      (none, markModelAsRateLimited s name now,
        some (failMessage (behavior name))) := by
  cases hb : behavior name with
  | ok text =>
      have h' : ((jsTrim text).length == 0) = true := by
        rw [hb] at h; simpa [isFailureB] using h
      simp [invokeModel, failMessage, hb, h']
  | error msg => simp [invokeModel, failMessage, hb]

theorem replyLoop_step_none (behavior : String → ModelResult)
    (clock : Nat → Nat) (priority : List String) (hasKey : Bool)
    (msg : String) (faqs : List FAQ) (fuel attempt : Nat)
    (s s1 : RouterState) (lastErr : Option String)
    (hget : getNextAvailableModel priority hasKey (clock attempt) s = (none, s1)) :
    replyLoop behavior clock priority hasKey msg faqs (fuel + 1) attempt s lastErr =
      ⟨ReplyOutcome.degraded (generateMockResponse msg faqs), [], s1, lastErr⟩ := by
  rw [replyLoop, hget]

theorem replyLoop_step_fail (behavior : String → ModelResult)
    (clock : Nat → Nat) (priority : List String) (hasKey : Bool)
    (msg : String) (faqs : List FAQ) (fuel attempt : Nat)
    (s s1 : RouterState) (lastErr : Option String) (name : String)
    (hget : getNextAvailableModel priority hasKey (clock attempt) s = (some name, s1))
    (hfail : isFailureB (behavior name) = true) :
    replyLoop behavior clock priority hasKey msg faqs (fuel + 1) attempt s lastErr =
      { outcome := (replyLoop behavior clock priority hasKey msg faqs fuel
          (attempt + 1) (markModelAsRateLimited s1 name (clock attempt))
          (some (failMessage (behavior name)))).outcome
      , invoked := name :: (replyLoop behavior clock priority hasKey msg faqs fuel
          (attempt + 1) (markModelAsRateLimited s1 name (clock attempt))
          (some (failMessage (behavior name)))).invoked
      , finalState := (replyLoop behavior clock priority hasKey msg faqs fuel
          (attempt + 1) (markModelAsRateLimited s1 name (clock attempt))
          (some (failMessage (behavior name)))).finalState
      , lastError := (replyLoop behavior clock priority hasKey msg faqs fuel
          (attempt + 1) (markModelAsRateLimited s1 name (clock attempt))
          (some (failMessage (behavior name)))).lastError } := by
  rw [replyLoop, hget]
  simp only [invokeModel_fail _ _ _ _ hfail]

theorem replyLoop_step_success (behavior : String → ModelResult)
    (clock : Nat → Nat) (priority : List String) (hasKey : Bool)
    (msg : String) (faqs : List FAQ) (fuel attempt : Nat)
    (s s1 : RouterState) (lastErr : Option String) (name tm : String)
    (hget : getNextAvailableModel priority hasKey (clock attempt) s = (some name, s1))
    (hb : behavior name = ModelResult.ok tm)
    (htm : ((jsTrim tm).length == 0) = false) :
    replyLoop behavior clock priority hasKey msg faqs (fuel + 1) attempt s lastErr =
      ⟨ReplyOutcome.success (jsTrim tm) name, [name], s1, lastErr⟩ := by
  rw [replyLoop, hget]
  simp only [invokeModel, hb, htm, Bool.false_eq_true, if_false]

theorem replyLoop_no_success_of_fail (behavior : String → ModelResult)
    (clock : Nat → Nat) (priority : List String) (hasKey : Bool)
    (msg : String) (faqs : List FAQ) (name : String)
    (hfail : isFailureB (behavior name) = true) :
    ∀ (fuel attempt : Nat) (s : RouterState) (lastErr : Option String)
      (t : String),
      (replyLoop behavior clock priority hasKey msg faqs fuel attempt s lastErr).outcome
        ≠ ReplyOutcome.success t name := by
  intro fuel
  induction fuel with
  | zero => intro attempt s lastErr t h; simp [replyLoop] at h
  | succ k ih =>
      intro attempt s lastErr t h
      rcases hg : getNextAvailableModel priority hasKey (clock attempt) s with ⟨o, s1⟩
      cases o with
      | none => rw [replyLoop_step_none _ _ _ _ _ _ _ _ _ _ _ hg] at h; simp at h
      | some n' =>
          by_cases hn : n' = name
          · subst hn
            rw [replyLoop_step_fail _ _ _ _ _ _ _ _ _ _ _ _ hg hfail] at h
            exact ih _ _ _ _ h
          · cases hb : behavior n' with
            | error m2 =>
                rw [replyLoop_step_fail _ _ _ _ _ _ _ _ _ _ _ _ hg
                  (by simp [isFailureB, hb])] at h
                exact ih _ _ _ _ h
            | ok text =>
                cases hc : ((jsTrim text).length == 0) with
                | true =>
                    rw [replyLoop_step_fail _ _ _ _ _ _ _ _ _ _ _ _ hg
                      (by simp [isFailureB, hb, hc])] at h
                    exact ih _ _ _ _ h
                | false =>
                    rw [replyLoop_step_success _ _ _ _ _ _ _ _ _ _ _ _ _ hg hb hc] at h
                    simp at h
                    exact hn h.2

theorem replyLoop_success_text (behavior : String → ModelResult)
    (clock : Nat → Nat) (priority : List String) (hasKey : Bool)
    (msg : String) (faqs : List FAQ) :
    ∀ (fuel attempt : Nat) (s : RouterState) (lastErr : Option String)
      (t n : String),
      (replyLoop behavior clock priority hasKey msg faqs fuel attempt s lastErr).outcome
        = ReplyOutcome.success t n → t ≠ "" := by
  intro fuel
  induction fuel with
  | zero => intro attempt s lastErr t n h; simp [replyLoop] at h
  | succ k ih =>
      intro attempt s lastErr t n h
      rcases hg : getNextAvailableModel priority hasKey (clock attempt) s with ⟨o, s1⟩
      cases o with
      | none => rw [replyLoop_step_none _ _ _ _ _ _ _ _ _ _ _ hg] at h; simp at h
      | some n' =>
          cases hb : behavior n' with
          | error m2 =>
              rw [replyLoop_step_fail _ _ _ _ _ _ _ _ _ _ _ _ hg
                (by simp [isFailureB, hb])] at h
              exact ih _ _ _ _ _ h
          | ok text =>
              cases hc : ((jsTrim text).length == 0) with
              | true =>
                  rw [replyLoop_step_fail _ _ _ _ _ _ _ _ _ _ _ _ hg
                    (by simp [isFailureB, hb, hc])] at h
                  exact ih _ _ _ _ _ h
              | false =>
                  rw [replyLoop_step_success _ _ _ _ _ _ _ _ _ _ _ _ _ hg hb hc] at h
                  simp at h
                  intro ht
                  rw [← h.1] at ht
                  rw [ht] at hc
                  simp at hc

theorem replyLoop_mock (behavior : String → ModelResult) (clock : Nat → Nat)
    (priority : List String) (hasKey : Bool) (msg : String) (faqs : List FAQ)
    (s : RouterState) (h : s.useMockMode = true) (fuel attempt : Nat)
    (lastErr : Option String) :
    replyLoop behavior clock priority hasKey msg faqs fuel attempt s lastErr =
      ⟨ReplyOutcome.degraded (generateMockResponse msg faqs), [], s, lastErr⟩ := by
  cases fuel with
  | zero => rw [replyLoop]
  | succ k =>
      have hg : getNextAvailableModel priority hasKey (clock attempt) s = (none, s) := by
        unfold getNextAvailableModel
        rw [h]
        simp
      exact replyLoop_step_none _ _ _ _ _ _ _ _ _ _ _ hg

theorem replyLoop_all_fail (behavior : String → ModelResult)
    (clock : Nat → Nat) (priority : List String) (hasKey : Bool)
    (msg : String) (faqs : List FAQ)
    (hfail : ∀ n ∈ priority, isFailureB (behavior n) = true) :
    ∀ (fuel attempt : Nat) (s : RouterState) (lastErr : Option String),
      (replyLoop behavior clock priority hasKey msg faqs fuel attempt s lastErr).outcome
        = ReplyOutcome.degraded (generateMockResponse msg faqs) := by
  intro fuel
  induction fuel with
  | zero => intro attempt s lastErr; rw [replyLoop]
  | succ k ih =>
      intro attempt s lastErr
      rcases hg : getNextAvailableModel priority hasKey (clock attempt) s with ⟨o, s1⟩
      cases o with
      | none => rw [replyLoop_step_none _ _ _ _ _ _ _ _ _ _ _ hg]
      | some name =>
          rw [replyLoop_step_fail _ _ _ _ _ _ _ _ _ _ _ _ hg
            (hfail name (getNext_some_mem _ _ _ _ _ _ hg))]
          exact ih _ _ _

/-! ## Claim C5 -/

/-- Claim C5: every failed invocation — a rejection (timeout, rate-limit or
any other error) or blank resolved text — makes the loop mark that model
rate-limited for the cooldown (`markModelAsRateLimited` at the current
time), record the failure as `lastError` (the rejection message, or
`"Empty response from Gemini"` for blank text), and continue with the next
attempt; a model whose invocations fail is never the source of a Success,
and blank text is never returned as a Success (every Success text is
non-empty). -/
theorem failed_invocation_marks_and_advances (behavior : String → ModelResult)
    (clock : Nat → Nat) (priority : List String) (hasKey : Bool)
    (msg : String) (faqs : List FAQ) (fuel attempt : Nat)
    (s s1 : RouterState) (lastErr : Option String) (name : String)
    (hget : getNextAvailableModel priority hasKey (clock attempt) s = (some name, s1))
    (hfail : isFailureB (behavior name) = true) :
    (replyLoop behavior clock priority hasKey msg faqs (fuel + 1) attempt s lastErr =
      { outcome := (replyLoop behavior clock priority hasKey msg faqs fuel
          (attempt + 1) (markModelAsRateLimited s1 name (clock attempt))
          (some (failMessage (behavior name)))).outcome
      , invoked := name :: (replyLoop behavior clock priority hasKey msg faqs fuel
          (attempt + 1) (markModelAsRateLimited s1 name (clock attempt))
          (some (failMessage (behavior name)))).invoked
      , finalState := (replyLoop behavior clock priority hasKey msg faqs fuel
          (attempt + 1) (markModelAsRateLimited s1 name (clock attempt))
          (some (failMessage (behavior name)))).finalState
      , lastError := (replyLoop behavior clock priority hasKey msg faqs fuel
          (attempt + 1) (markModelAsRateLimited s1 name (clock attempt))
          (some (failMessage (behavior name)))).lastError })
  ∧ (∀ (fuel' attempt' : Nat) (s' : RouterState) (lastErr' : Option String)
        (t : String),
      (replyLoop behavior clock priority hasKey msg faqs fuel' attempt' s' lastErr').outcome
        ≠ ReplyOutcome.success t name)
  ∧ (∀ (fuel' attempt' : Nat) (s' : RouterState) (lastErr' : Option String)
        (t n : String),
      (replyLoop behavior clock priority hasKey msg faqs fuel' attempt' s' lastErr').outcome
        = ReplyOutcome.success t n → t ≠ "") :=
  ⟨replyLoop_step_fail _ _ _ _ _ _ _ _ _ _ _ _ hget hfail,
   fun fuel' attempt' s' lastErr' t =>
     replyLoop_no_success_of_fail _ _ _ _ _ _ _ hfail fuel' attempt' s' lastErr' t,
   fun fuel' attempt' s' lastErr' t n h =>
     replyLoop_success_text _ _ _ _ _ _ fuel' attempt' s' lastErr' t n h⟩

theorem failed_invocation_marks_and_advances_witness :
    (replyLoop (fun _ => ModelResult.error "429 rate limit") (fun _ => 0)
        MODEL_PRIORITY true "hi" [] 3 0 ⟨[], true, false⟩ none).outcome
      ≠ ReplyOutcome.success "some text" "gemini-2.5-flash-lite" :=
  (failed_invocation_marks_and_advances (fun _ => ModelResult.error "429 rate limit")
    (fun _ => 0) MODEL_PRIORITY true "hi" [] 2 0 ⟨[], true, false⟩
    ⟨[], true, false⟩ none "gemini-2.5-flash-lite"
    (by decide) (by decide)).2.1 3 0 ⟨[], true, false⟩ none "some text"

/-! ## Claim C6 -/

/-- Claim C6: when no API key is present at the first model lookup, the
mock latch is set and the request returns a Degraded reply from the
fallback responder with no model invocation (first conjunct); once the
latch is set, every later `generateReply` call — whatever the key or the
upstream behavior — returns a Degraded reply with no invocation and leaves
the state (latch included) unchanged, so the latch is never reset (second
conjunct). -/
theorem mock_mode_latch (behavior : String → ModelResult) (clock : Nat → Nat)
    (msg : String) (faqs : List FAQ) :
    (∀ s : RouterState, s.useMockMode = false → s.genAI = false →
      generateReply behavior clock MODEL_PRIORITY false msg faqs s =
        { outcome := ReplyOutcome.degraded (generateMockResponse msg faqs)
        , invoked := []
        , finalState := { s with useMockMode := true }
        , lastError := none })
  ∧ (∀ (s : RouterState) (hasKey : Bool) (behavior2 : String → ModelResult),
      s.useMockMode = true →
      generateReply behavior2 clock MODEL_PRIORITY hasKey msg faqs s =
        { outcome := ReplyOutcome.degraded (generateMockResponse msg faqs)
        , invoked := []
        , finalState := s
        , lastError := none }) := by
  constructor
  · intro s h1 h2
    unfold generateReply
    rw [show MODEL_PRIORITY.length = 9 + 1 from rfl]
    have hg : getNextAvailableModel MODEL_PRIORITY false (clock 0) s =
        (none, { s with useMockMode := true }) := by
      unfold getNextAvailableModel
      rw [h1, h2]
      simp
    exact replyLoop_step_none _ _ _ _ _ _ _ _ _ _ _ hg
  · intro s hasKey behavior2 h
    unfold generateReply
    exact replyLoop_mock _ _ _ _ _ _ _ h _ _ _

theorem mock_mode_latch_witness :
    generateReply (fun _ => ModelResult.ok "hello") (fun _ => 0) MODEL_PRIORITY
        false "hi" [] ⟨[], false, false⟩ =
      { outcome := ReplyOutcome.degraded (generateMockResponse "hi" [])
      , invoked := []
      , finalState := ⟨[], false, true⟩
      , lastError := none }
  ∧ generateReply (fun _ => ModelResult.ok "hello") (fun _ => 0) MODEL_PRIORITY
        true "hi" [] ⟨[], false, true⟩ =
      { outcome := ReplyOutcome.degraded (generateMockResponse "hi" [])
      , invoked := []
      , finalState := ⟨[], false, true⟩
      , lastError := none } :=
  ⟨(mock_mode_latch (fun _ => ModelResult.ok "hello") (fun _ => 0) "hi" []).1
      ⟨[], false, false⟩ rfl rfl,
   (mock_mode_latch (fun _ => ModelResult.ok "hello") (fun _ => 0) "hi" []).2
      ⟨[], false, true⟩ true (fun _ => ModelResult.ok "hello") rfl⟩

/-! ## Claim C7 -/

/-- Claim C7: `generateReply` is a total function into reply outcomes — it
never raises for upstream failures — and when every model in the priority
list fails (rejects or resolves blank), it returns the Degraded textual
reply produced by the deterministic fallback responder. -/
theorem exhaustion_returns_degraded (behavior : String → ModelResult)
    (clock : Nat → Nat) (priority : List String) (hasKey : Bool)
    (msg : String) (faqs : List FAQ) (s : RouterState)
    (hfail : ∀ n ∈ priority, isFailureB (behavior n) = true) :
    (generateReply behavior clock priority hasKey msg faqs s).outcome
      = ReplyOutcome.degraded (generateMockResponse msg faqs) :=
  replyLoop_all_fail behavior clock priority hasKey msg faqs hfail
    priority.length 0 s none

theorem exhaustion_returns_degraded_witness :
    (generateReply (fun _ => ModelResult.error "boom") (fun _ => 0)
        MODEL_PRIORITY true "hi" [] ⟨[], false, false⟩).outcome
      = ReplyOutcome.degraded (generateMockResponse "hi" []) :=
  exhaustion_returns_degraded (fun _ => ModelResult.error "boom") (fun _ => 0)
    MODEL_PRIORITY true "hi" [] ⟨[], false, false⟩ (fun _ _ => rfl)

/-! ## Claim C1 machinery -/

theorem mapSet_fresh (m : List (String × Nat)) (name : String) (v : Nat)
    (h : name ∉ m.map Prod.fst) : mapSet m name v = m ++ [(name, v)] := by
  induction m with
  | nil => rfl
  | cons e rest ih =>
      rw [List.map_cons] at h
      have h1 : name ≠ e.1 := fun hh => h (hh ▸ List.mem_cons_self _ _)
      have h2 : name ∉ rest.map Prod.fst := fun hh => h (List.mem_cons_of_mem _ hh)
      have hb : (e.1 == name) = false := by
        simp only [beq_eq_false_iff_ne, ne_eq]
        exact fun hh => h1 hh.symm
      simp [mapSet, hb, ih h2]

theorem find?_append_all_false {α : Type} (p : α → Bool) (l1 l2 : List α)
    (h : ∀ x ∈ l1, p x = false) :
    List.find? p (l1 ++ l2) = List.find? p l2 := by
  induction l1 with
  | nil => rfl
  | cons a t ih =>
      rw [List.cons_append, List.find?_cons, h a (by simp)]
      exact ih (fun x hx => h x (by simp [hx]))

theorem any_key_eq_mem (marked : List (String × Nat)) (x : String) :
    (marked.any (fun e => e.1 == x)) = true ↔ x ∈ marked.map Prod.fst := by
  simp [List.any_eq_true, List.mem_map, beq_iff_eq]

theorem getNext_eq (pre rest : List String) (m : String)
    (marked : List (String × Nat)) (g hasKey : Bool) (now : Nat)
    (hkeys : marked.map Prod.fst = pre)
    (hfresh : ∀ e ∈ marked, now - e.2 ≤ 60000)
    (hm : m ∉ pre)
    (hlive : g = true ∨ hasKey = true) :
    getNextAvailableModel (pre ++ m :: rest) hasKey now ⟨marked, g, false⟩ =
      (some m, ⟨marked, true, false⟩) := by
  have hpurge : purgeExpired marked now = marked := by
    apply filter_of_all_true
    intro e he
    have h1 := hfresh e he
    simp only [Bool.not_eq_true', decide_eq_false_iff_not]
    omega
  have hfind : List.find?
      (fun name => !(marked.any (fun e => e.1 == name)))
      (pre ++ m :: rest) = some m := by
    rw [find?_append_all_false]
    · rw [List.find?_cons]
      have hany : (marked.any (fun e => e.1 == m)) = false := by
        cases ha : marked.any (fun e => e.1 == m) with
        | false => rfl
        | true => exact absurd (hkeys ▸ (any_key_eq_mem marked m).1 ha) hm
      rw [hany]
      rfl
    · intro x hx
      have : (marked.any (fun e => e.1 == x)) = true :=
        (any_key_eq_mem marked x).2 (hkeys ▸ hx)
      simp [this]
  have hc : ¬ ((!(⟨marked, g, false⟩ : RouterState).genAI && !hasKey) = true) := by
    rcases hlive with h | h <;> simp [h]
  unfold getNextAvailableModel
  rw [if_neg (by simp : ¬ ((⟨marked, g, false⟩ : RouterState).useMockMode = true))]
  rw [if_neg hc]
  simp only [hpurge, hfind]

theorem replyLoop_fail_then_success (behavior : String → ModelResult)
    (clock : Nat → Nat) (msg : String) (faqs : List FAQ)
    (rest : List String) (m tm : String)
    (hsucc : behavior m = ModelResult.ok tm)
    (htm : ((jsTrim tm).length == 0) = false) :
    ∀ (fs pre : List String) (marked : List (String × Nat))
      (attempt fuel : Nat) (lastErr : Option String) (g hasKey : Bool),
    (pre ++ (fs ++ m :: rest)).Nodup →
    marked.map Prod.fst = pre →
    (∀ x ∈ fs, isFailureB (behavior x) = true) →
    fs.length < fuel →
    (∀ e ∈ marked, ∀ a, attempt ≤ a → a ≤ attempt + fs.length →
      clock a - e.2 ≤ 60000) →
    (∀ i j, attempt ≤ i → i ≤ j → j ≤ attempt + fs.length →
      clock j - clock i ≤ 60000) →
    (g = true ∨ hasKey = true) →
    (replyLoop behavior clock (pre ++ (fs ++ m :: rest)) hasKey msg faqs fuel
        attempt ⟨marked, g, false⟩ lastErr).outcome
      = ReplyOutcome.success (jsTrim tm) m
  ∧ (replyLoop behavior clock (pre ++ (fs ++ m :: rest)) hasKey msg faqs fuel
        attempt ⟨marked, g, false⟩ lastErr).invoked = fs ++ [m] := by
  intro fs
  induction fs with
  | nil =>
      intro pre marked attempt fuel lastErr g hasKey hnd hkeys _ hlt hfresh _ hlive
      cases fuel with
      | zero => omega
      | succ k =>
          have hm : m ∉ pre := by
            have hdisj := (List.nodup_append.1 hnd).2.2
            exact fun hmem => hdisj hmem (by simp)
          have hg : getNextAvailableModel (pre ++ (([] : List String) ++ m :: rest))
              hasKey (clock attempt) ⟨marked, g, false⟩
              = (some m, ⟨marked, true, false⟩) :=
            getNext_eq pre rest m marked g hasKey (clock attempt) hkeys
              (fun e he => hfresh e he attempt (Nat.le_refl _) (by omega)) hm hlive
          rw [replyLoop_step_success _ _ _ _ _ _ _ _ _ _ _ _ _ hg hsucc htm]
          exact ⟨rfl, rfl⟩
  | cons x fs' ih =>
      intro pre marked attempt fuel lastErr g hasKey hnd hkeys hfail hlt hfresh hclock hlive
      cases fuel with
      | zero => simp at hlt
      | succ k =>
          have hx : x ∉ pre := by
            have hdisj := (List.nodup_append.1 hnd).2.2
            exact fun hmem => hdisj hmem (by simp)
          have hg : getNextAvailableModel (pre ++ ((x :: fs') ++ m :: rest)) hasKey
              (clock attempt) ⟨marked, g, false⟩ = (some x, ⟨marked, true, false⟩) :=
            getNext_eq pre (fs' ++ m :: rest) x marked g hasKey (clock attempt)
              hkeys (fun e he => hfresh e he attempt (Nat.le_refl _) (by omega)) hx hlive
          have hfx : isFailureB (behavior x) = true := hfail x (by simp)
          rw [replyLoop_step_fail _ _ _ _ _ _ _ _ _ _ _ _ hg hfx]
          have hmark : markModelAsRateLimited ⟨marked, true, false⟩ x (clock attempt)
              = ⟨marked ++ [(x, clock attempt)], true, false⟩ := by
            unfold markModelAsRateLimited
            rw [mapSet_fresh marked x (clock attempt) (hkeys ▸ hx)]
          rw [hmark]
          have hlen : fs'.length < k := by simp at hlt; omega
          have ihr := ih (pre ++ [x]) (marked ++ [(x, clock attempt)]) (attempt + 1) k
            (some (failMessage (behavior x))) true hasKey
            (by rw [List.append_assoc]; exact hnd)
            (by rw [List.map_append, hkeys]; rfl)
            (fun y hy => hfail y (by simp [hy]))
            hlen
            (by
              intro e he a ha1 ha2
              rcases List.mem_append.1 he with he | he
              · refine hfresh e he a (by omega) ?_
                simp only [List.length_cons]
                omega
              · have he' : e = (x, clock attempt) := by simpa using he
                subst he'
                refine hclock attempt a (Nat.le_refl _) (by omega) ?_
                simp only [List.length_cons]
                omega)
            (by
              intro i j hi hij hj
              refine hclock i j (by omega) hij ?_
              simp only [List.length_cons]
              omega)
            (Or.inl rfl)
          rw [List.append_assoc] at ihr
          exact ⟨ihr.1, congrArg (fun l => x :: l) ihr.2⟩

/-! ## Claim C1 -/

/-- Claim C1: in live mode (mock latch unset, credential present or client
already initialised) with no model initially suppressed, if the models of
the priority-list prefix `pre` (indices `0..k-1`, `k = pre.length`) all
fail and the model `m` at index `k` succeeds with non-blank text, then
`generateReply` returns Success with `modelUsed = m`, having invoked
exactly the models `pre ++ [m]` in order — each of indices `0..k-1` exactly
once, the model at index `k` once, and no model at an index `> k`.  A
priority list is a list of distinct model identifiers (`Nodup`); the clock
hypothesis says the request does not straddle a 60 s cooldown expiry, i.e.
its iterations lie within one cooldown window (otherwise the code would
legitimately retry an expired model). -/
theorem generateReply_priority_fallback (behavior : String → ModelResult)
    (clock : Nat → Nat) (pre rest : List String) (m tm : String)
    (msg : String) (faqs : List FAQ) (g hasKey : Bool)
    (hnd : (pre ++ m :: rest).Nodup)
    (hfail : ∀ x ∈ pre, isFailureB (behavior x) = true)
    (hsucc : behavior m = ModelResult.ok tm)
    (htm : ((jsTrim tm).length == 0) = false)
    (hclock : ∀ i j, i ≤ j → j ≤ pre.length → clock j - clock i ≤ 60000)
    (hlive : g = true ∨ hasKey = true) :
    (generateReply behavior clock (pre ++ m :: rest) hasKey msg faqs
        ⟨[], g, false⟩).outcome = ReplyOutcome.success (jsTrim tm) m
  ∧ (generateReply behavior clock (pre ++ m :: rest) hasKey msg faqs
        ⟨[], g, false⟩).invoked = pre ++ [m] := by
  have h := replyLoop_fail_then_success behavior clock msg faqs rest m tm hsucc htm
    pre [] [] 0 ((pre ++ m :: rest).length) none g hasKey
    hnd rfl hfail
    (by simp only [List.length_append, List.length_cons]; omega)
    (fun e he => absurd he (List.not_mem_nil e))
    (fun i j _ hij hj => hclock i j hij (by omega))
    hlive
  exact h

theorem generateReply_priority_fallback_witness :
    (generateReply
        (fun n => if n == "gemini-2.5-flash-lite" then
            ModelResult.error "429 Too Many Requests"
          else ModelResult.ok "Hello there")
        (fun _ => 0) MODEL_PRIORITY true "hi" [] ⟨[], false, false⟩).outcome
      = ReplyOutcome.success "Hello there" "gemini-2.5-flash-tts"
  ∧ (generateReply
        (fun n => if n == "gemini-2.5-flash-lite" then
            ModelResult.error "429 Too Many Requests"
          else ModelResult.ok "Hello there")
        (fun _ => 0) MODEL_PRIORITY true "hi" [] ⟨[], false, false⟩).invoked
      = ["gemini-2.5-flash-lite", "gemini-2.5-flash-tts"] := by
  have h := generateReply_priority_fallback
    (fun n => if n == "gemini-2.5-flash-lite" then
        ModelResult.error "429 Too Many Requests"
      else ModelResult.ok "Hello there")
    (fun _ => 0) ["gemini-2.5-flash-lite"]
    [ "gemini-2.5-flash", "gemini-3-flash", "gemini-robotics-er-1.5-preview"
    , "gemma-3-12b", "gemma-3-1b", "gemma-3-27b", "gemma-3-2b", "gemma-3-4b" ]
    "gemini-2.5-flash-tts" "Hello there" "hi" [] false true
    (by decide) (by decide) (by decide) (by decide)
    (by intro i j h1 h2; simp) (Or.inr rfl)
  constructor
  · have h1 := h.1
    rw [show jsTrim "Hello there" = "Hello there" from by decide] at h1
    exact h1
  · exact h.2

/-! ## Claim C8 machinery -/

theorem string_ext (s t : String) (h : s.data = t.data) : s = t := by
  cases s; cases t; exact congrArg String.mk h

theorem string_append_nil (s : String) : s ++ "" = s := by
  cases s with
  | mk d =>
      show String.mk (d ++ []) = String.mk d
      rw [List.append_nil]

theorem string_append_right_cancel (a b c : String) (h : a ++ c = b ++ c) :
    a = b := by
  apply string_ext
  have hd := congrArg String.data h
  rw [String.data_append, String.data_append] at hd
  exact List.append_cancel_right hd

theorem joinWith_cons_data (sep x : String) (xs : List String) :
    ∃ r : List Char, (joinWith sep (x :: xs)).data = x.data ++ r := by
  cases xs with
  | nil =>
      refine ⟨[], ?_⟩
      show x.data = x.data ++ []
      rw [List.append_nil]
  | cons y ys =>
      refine ⟨(sep ++ joinWith sep (y :: ys)).data, ?_⟩
      show (x ++ sep ++ joinWith sep (y :: ys)).data = _
      rw [String.append_assoc, String.data_append]

theorem historyLine_data_ne_nil (mm : ChatMessage) :
    ((if mm.sender == Sender.user then "Customer" else "Agent") ++ ": " ++ mm.text).data
      ≠ [] := by
  intro h
  rw [String.data_append, String.data_append] at h
  rcases List.append_eq_nil.1 h with ⟨h1, _⟩
  rcases List.append_eq_nil.1 h1 with ⟨h2, _⟩
  cases hs : mm.sender == Sender.user with
  | true => rw [if_pos hs] at h2; exact absurd h2 (by decide)
  | false => rw [if_neg (by simp [hs])] at h2; exact absurd h2 (by decide)

theorem historyLinesOf_ne_empty (mm : ChatMessage) (t : List ChatMessage) :
    historyLinesOf (mm :: t) ≠ "" := by
  intro h
  unfold historyLinesOf at h
  rw [List.map_cons] at h
  obtain ⟨r, hr⟩ := joinWith_cons_data "\n"
    ((if mm.sender == Sender.user then "Customer" else "Agent") ++ ": " ++ mm.text)
    (t.map (fun m2 =>
      (if m2.sender == Sender.user then "Customer" else "Agent") ++ ": " ++ m2.text))
  have hd := congrArg String.data h
  rw [hr, show ("" : String).data = [] from rfl] at hd
  exact historyLine_data_ne_nil mm (List.append_eq_nil.1 hd).1

theorem historyLinesOf_eq_empty (msgs : List ChatMessage) :
    (historyLinesOf msgs = "") ↔ msgs = [] := by
  cases msgs with
  | nil => exact ⟨fun _ => rfl, fun _ => rfl⟩
  | cons mm t =>
      constructor
      · intro h; exact absurd h (historyLinesOf_ne_empty mm t)
      · intro h; simp at h

/-! ## Claim C8 -/

/-- Claim C8, counterexample: no single fixed instruction block placed
before the FAQ pairs can describe the prompt — the fixed GUIDELINES text
sits between the FAQ block and the (optional) history block, so the prompt
is not the claimed four-part concatenation instruction/FAQs/history/cue for
any choice of the fixed instruction block. -/
theorem prompt_spec_order_cex :
    ¬ ∃ instr : String,
      ∀ (faqs : List FAQ) (hist : List ChatMessage) (msg : String),
        buildPrompt faqs hist msg =
          instr ++ faqContextOf faqs ++
            (if hist = [] then ""
             else "CONVERSATION HISTORY:\n" ++ historyLinesOf hist ++ "\n") ++
            ("Customer: " ++ msg ++ "\nAgent:") := by
  rintro ⟨instr, h⟩
  have h0 := h [] [] "x"
  have h1 := h [⟨"q", "a"⟩] [] "x"
  rw [show faqContextOf [] = "" from rfl, if_pos rfl, string_append_nil,
    string_append_nil] at h0
  have e0 : buildPrompt [] [] "x" =
      (promptHeader ++ promptGuidelines ++ "\n") ++
        ("Customer: " ++ "x" ++ "\nAgent:") := by decide
  have hA : instr = promptHeader ++ promptGuidelines ++ "\n" :=
    string_append_right_cancel _ _ ("Customer: " ++ "x" ++ "\nAgent:")
      (h0.symm.trans e0)
  subst hA
  rw [if_pos rfl, string_append_nil] at h1
  exact absurd h1 (by decide)

/-- Claim C8, amended: the prompt is the in-order concatenation of the
fixed header (role text plus "STORE INFORMATION:"), the FAQ block — one
"Q: …\nA: …" pair per FAQ in the order given, none dropped or reordered,
joined by blank lines —, the fixed GUIDELINES block, the conversation
history block ("Customer: …"/"Agent: …" lines in the order given) included
iff the history is non-empty, and a newline plus the closing
"Customer: {userMessage}\nAgent:" cue.  Part of the fixed instruction text
(GUIDELINES) thus follows the FAQ block instead of preceding it. -/
theorem prompt_decomposition :
    (∀ (faqs : List FAQ) (hist : List ChatMessage) (msg : String),
      buildPrompt faqs hist msg =
        promptHeader ++ faqContextOf faqs ++ promptGuidelines ++
          (if hist = [] then ""
           else "CONVERSATION HISTORY:\n" ++ historyLinesOf hist ++ "\n") ++
          "\nCustomer: " ++ msg ++ "\nAgent:")
  ∧ faqContextOf [] = ""
  ∧ (∀ (f : FAQ) (rest : List FAQ),
      faqContextOf (f :: rest) =
        ("Q: " ++ f.question ++ "\nA: " ++ f.answer) ++
          (if rest = [] then "" else "\n\n" ++ faqContextOf rest))
  ∧ historyLinesOf [] = ""
  ∧ (∀ (mm : ChatMessage) (rest : List ChatMessage),
      historyLinesOf (mm :: rest) =
        ((if mm.sender == Sender.user then "Customer" else "Agent") ++ ": " ++ mm.text) ++
          (if rest = [] then "" else "\n" ++ historyLinesOf rest)) := by
  refine ⟨?_, rfl, ?_, rfl, ?_⟩
  · intro faqs hist msg
    unfold buildPrompt
    rw [if_congr (historyLinesOf_eq_empty hist) rfl rfl]
  · intro f rest
    cases rest with
    | nil =>
        rw [if_pos rfl, string_append_nil]
        rfl
    | cons g gs =>
        rw [if_neg (by simp)]
        show ("Q: " ++ f.question ++ "\nA: " ++ f.answer) ++ "\n\n" ++
            joinWith "\n\n" ((g :: gs).map
              (fun faq => "Q: " ++ faq.question ++ "\nA: " ++ faq.answer)) = _
        rw [String.append_assoc]
        rfl
  · intro mm rest
    cases rest with
    | nil =>
        rw [if_pos rfl, string_append_nil]
        rfl
    | cons m2 ms =>
        rw [if_neg (show ¬ (m2 :: ms = []) by simp)]
        show ((if mm.sender == Sender.user then "Customer" else "Agent") ++ ": " ++ mm.text)
            ++ "\n" ++ joinWith "\n" ((m2 :: ms).map (fun m3 =>
              (if m3.sender == Sender.user then "Customer" else "Agent") ++ ": " ++ m3.text)) = _
        rw [String.append_assoc]
        rfl
